import Mathlib

/-!
Verification of the image-generation client (prompt validation, the
retry/backoff orchestrator in `ImageGenerator.generate_image`, the error
classifier `_handle_api_error`, and the persistence pipeline
`save_image_from_url`), shallowly embedded from the Python sources in
`image_generation/utils.py` and `image_generation/image_generator.py`.
-/

deriving instance DecidableEq for Except

namespace ImageGen

/-! ## Prompt validator (`image_generation/utils.py`, `validate_prompt`) -/

/-- A Python value passed to `validate_prompt`: either a string, or a
non-string value (carrying only its truthiness, which is all the source
inspects before rejecting it). -/
inductive PyInput where
  | str (s : String)
  | nonString (truthy : Bool)
deriving DecidableEq

/-- The whitespace test used by Python's `str.strip()` (ASCII part:
space, tab, newline, carriage return, vertical tab, form feed). -/
def pyIsSpace (c : Char) : Bool :=
  c = ' ' || c = '\t' || c = '\n' || c = '\r' || c = '\x0b' || c = '\x0c'

/-- Python's `str.strip()` on the underlying character list: drop
whitespace from the front, then from the back. -/
def pyStripList (l : List Char) : List Char :=
  List.rdropWhile pyIsSpace (List.dropWhile pyIsSpace l)

/-- Python's `str.strip()`. -/
def pyStrip (s : String) : String :=
  String.mk (pyStripList s.data)

/-- `validate_prompt` from `image_generation/utils.py`.  The source guard
`if not prompt or not isinstance(prompt, str)` rejects every non-string
value and the empty string with the same `ValueError`; then it strips the
prompt, rejects a whitespace-only or over-long result, and returns the
stripped prompt.  Errors model `ValueError` messages. -/
def validate_prompt : PyInput → Except String String
  | .nonString _ => .error "Prompt must be a non-empty string"
  | .str s =>
    if s = "" then .error "Prompt must be a non-empty string"
    else if pyStrip s = "" then .error "Prompt cannot be empty or just whitespace"
    else if (pyStrip s).length > 500 then .error "Prompt is too long (maximum 500 characters)"
    else .ok (pyStrip s)

theorem pyStripList_fixed_of_dropWhile_fixed (l : List Char)
    (h : List.dropWhile pyIsSpace l = l) :
    List.dropWhile pyIsSpace (List.rdropWhile pyIsSpace l)
      = List.rdropWhile pyIsSpace l := by
  apply List.dropWhile_eq_self_iff.mpr
  intro hl
  have hpre := List.rdropWhile_prefix pyIsSpace l
  have hlen : 0 < l.length :=
    lt_of_lt_of_le hl ( List.IsPrefix.length_le hpre)
  have h0 := List.dropWhile_eq_self_iff.mp h hlen
  have hEq : (List.rdropWhile pyIsSpace l).get ⟨0, hl⟩ = l.get ⟨0, hlen⟩ := by
    simpa using List.IsPrefix.getElem hpre hl
  rw [hEq]
  exact h0

theorem pyStripList_idem (l : List Char) : pyStripList (pyStripList l) = pyStripList l := by
  unfold pyStripList
  rw [pyStripList_fixed_of_dropWhile_fixed _ (List.dropWhile_idempotent _ _),
    List.rdropWhile_idempotent]

theorem pyStrip_idem (s : String) : pyStrip (pyStrip s) = pyStrip s := by
  simp [pyStrip, pyStripList_idem]

/-! ## Error classifier (`ImageGenerator._handle_api_error`) -/

/-- The exception caught by the `except` clause of `generate_image`,
tagged by the Python class tested by the `isinstance` dispatch of
`_handle_api_error`: `replicate.exceptions.ModelError`,
`replicate.exceptions.ReplicateError`, `requests.exceptions.RequestException`,
the pipeline's own `ImageSaveError`, the `IndexError` from `output[0]`,
or any other exception.  Each carries `str(error)`. -/
inductive CaughtError where
  | modelError (msg : String)
  | replicateError (msg : String)
  | requestException (msg : String)
  | imageSaveError (msg : String)
  | indexError (msg : String)
  | otherError (msg : String)
deriving DecidableEq

/-- Python's `str(error)`. -/
def CaughtError.text : CaughtError → String
  | .modelError m => m
  | .replicateError m => m
  | .requestException m => m
  | .imageSaveError m => m
  | .indexError m => m
  | .otherError m => m

/-- Substring occurrence on character lists. -/
def containsSub (needle : List Char) : List Char → Bool
  | [] => needle.isEmpty
  | c :: rest => needle.isPrefixOf (c :: rest) || containsSub needle rest

/-- Python's `needle in hay` membership test on strings. -/
def pyIn (needle hay : String) : Bool := containsSub needle.data hay.data

/-- `ImageGenerator._handle_api_error` from
`image_generation/image_generator.py`: the `isinstance` dispatch with the
`"rate limit"` / `"unauthorized"` tests on `str(error).lower()`, ending in
the catch-all `else` branch. -/
def handle_api_error : CaughtError → Bool × String
  | .modelError m => (false, "Model error: " ++ m)
  | .replicateError m =>
    if pyIn "rate limit" (String.toLower m) then (true, "Rate limit exceeded")
    else if pyIn "unauthorized" (String.toLower m) then (false, "Invalid API token")
    else (true, "API error: " ++ m)
  | .requestException m => (true, "Network error: " ++ m)
  | e => (false, "Unexpected error: " ++ e.text)

/-- Modelled from the spec: the classification table of §4.2.1, one row
per line, in table order.  "Whose text contains" is read as the usual
case-insensitive match on the error text (the code compares against the
lowercased text). -/
def classify_spec : CaughtError → Bool × String
  | .modelError m => (false, "Model error: " ++ m)
  | .replicateError m =>
    if pyIn "rate limit" (String.toLower m) then (true, "Rate limit exceeded")
    else if pyIn "unauthorized" (String.toLower m) then (false, "Invalid API token")
    else (true, "API error: " ++ m)
  | .requestException m => (true, "Network error: " ++ m)
  | .imageSaveError m => (false, "Unexpected error: " ++ m)
  | .indexError m => (false, "Unexpected error: " ++ m)
  | .otherError m => (false, "Unexpected error: " ++ m)

/-! ## Retry/backoff orchestrator (`ImageGenerator.generate_image`) -/

/-- The dictionary returned on success: `filepath` and the cleaned
`prompt`. -/
structure ImageRecord where
  filepath : String
  prompt : String
deriving DecidableEq

/-- The terminal exception of `generate_image`: the `ValueError` from
`validate_prompt`, or the `APIError` wrapping the last classification
message. -/
inductive GenError where
  | invalidPrompt (msg : String)
  | apiError (msg : String)
deriving DecidableEq

/-- Observable behaviour of one `generate_image` request: how many times
the remote call ran, the `time.sleep` delays in order, and the terminal
result. -/
structure GenOutcome where
  calls : Nat
  sleeps : List ℚ
  result : Except GenError ImageRecord

/-- One iteration of the `try` body at attempt `a`: run the remote call;
on success index `output[0]` (an empty list raises
`IndexError("list index out of range")`) and hand the URL to the
persistence pipeline; every raised exception is classified by
`_handle_api_error` (persistence failures arrive as `ImageSaveError`). -/
def attemptOnce (call : Nat → Except CaughtError (List String))
    (persist : String → Except String String) (cleaned : String) (a : Nat) :
    Except (Bool × String) ImageRecord :=
  match call a with
  | .error e => .error (handle_api_error e)
  | .ok urls =>
    match urls with
    | [] => .error (handle_api_error (.indexError "list index out of range"))
    | u :: _ =>
      match persist u with
      | .error m => .error (handle_api_error (.imageSaveError m))
      | .ok fp => .ok ⟨fp, cleaned⟩

/-- Trace of the retry loop proper (before the error is wrapped in
`APIError`). -/
structure LoopTrace where
  calls : Nat
  sleeps : List ℚ
  result : Except String ImageRecord

/-- The `for attempt in range(max_retries + 1)` loop of `generate_image`,
at attempt index `a` with `remaining = max_retries - a` further attempts
allowed.  A positive attempt first sleeps `base_delay * 2 ^ (a - 1)`.
On a classified failure the loop re-raises when the classification says
not to retry or when `remaining = 0` (the source condition
`not should_retry or attempt == self.max_retries`). -/
def genFrom (base_delay : ℚ) (body : Nat → Except (Bool × String) ImageRecord) :
    Nat → Nat → LoopTrace
  | a, 0 =>
    let sl : List ℚ := if a > 0 then [base_delay * 2 ^ (a - 1)] else []
    match body a with
    | .ok r => ⟨1, sl, .ok r⟩
    | .error (_, msg) => ⟨1, sl, .error msg⟩
  | a, remaining + 1 =>
    let sl : List ℚ := if a > 0 then [base_delay * 2 ^ (a - 1)] else []
    match body a with
    | .ok r => ⟨1, sl, .ok r⟩
    | .error (shouldRetry, msg) =>
      if shouldRetry then
        let rest := genFrom base_delay body (a + 1) remaining
        ⟨1 + rest.calls, sl ++ rest.sleeps, rest.result⟩
      else ⟨1, sl, .error msg⟩

/-- `ImageGenerator.generate_image`: validate the prompt once (failures
propagate uncounted), then run the retry loop from attempt 0 with
`max_retries` further attempts allowed. -/
def generate_image (max_retries : Nat) (base_delay : ℚ)
    (call : Nat → Except CaughtError (List String))
    (persist : String → Except String String) (raw : PyInput) : GenOutcome :=
  match validate_prompt raw with
  | .error m => ⟨0, [], .error (.invalidPrompt m)⟩
  | .ok cleaned =>
    let t := genFrom base_delay (attemptOnce call persist cleaned) 0 max_retries
    ⟨t.calls, t.sleeps, t.result.mapError GenError.apiError⟩

/-! ## Persistence pipeline (`image_generation/utils.py`,
`save_image_from_url` and its helpers) -/

/-- Raw file content as a byte list. -/
abbrev Bytes := List Nat

/-- The local filesystem, as an association list from paths to contents. -/
abbrev FS := List (String × Bytes)

/-- Content of the file at `p`, when it exists. -/
def fsRead (fs : FS) (p : String) : Option Bytes :=
  (fs.find? (fun e => e.1 == p)).map Prod.snd

/-- Create or fully replace the file at `p` with content `b`. -/
def fsWrite (fs : FS) (p : String) (b : Bytes) : FS :=
  (p, b) :: fs.filter (fun e => e.1 != p)

/-- Python's `os.path.exists`. -/
def fsExists (fs : FS) (p : String) : Bool :=
  (fsRead fs p).isSome

/-- Python's `os.path.join(output_dir, filename)`. -/
def pathJoin (dir filename : String) : String :=
  dir ++ "/" ++ filename

/-- The default `required_bytes` of `check_disk_space`
(`1024 * 1024 * 10`). -/
def required_bytes_default : Nat := 1024 * 1024 * 10

/-- The behaviour of the external collaborators of `save_image_from_url`
(PIL, `requests`, `shutil`) for one call: `diskFree` is what
`shutil.disk_usage` reports (`none` when the call raises); `download` is
the outcome of `requests.get` plus `raise_for_status` (the error carries
`str(e)` of the `RequestException`); `decodes` tells whether `Image.open`
succeeds on given bytes (otherwise `UnidentifiedImageError`); `verifies`
tells whether `image.verify()` succeeds; `encode` gives the bytes PIL
writes when saving the decoded image; `copyOk` tells whether
`shutil.copy2` succeeds; `saveRes` is the `IOError` message raised by
`image_copy.save`, if any; `timestamp` is
`datetime.now().strftime('%Y%m%d_%H%M%S')`. -/
structure SaveEnv where
  diskFree : Option Nat
  download : Except String Bytes
  decodes : Bytes → Bool
  verifies : Bytes → Bool
  encode : Bytes → Bytes
  copyOk : Bool
  saveRes : Option String
  timestamp : String

/-- `check_disk_space` from `image_generation/utils.py`: `free >
required_bytes`, and `True` when the `shutil.disk_usage` call itself
raises (fail open). -/
def check_disk_space (diskFree : Option Nat) (required : Nat) : Bool :=
  match diskFree with
  | some free => decide (free > required)
  | none => true

/-- `create_backup` from `image_generation/utils.py`: `None` when the
file does not exist; otherwise copy it to `<path>.backup`, returning the
backup path, and swallow a copy failure (returning `None`). -/
def create_backup (copyOk : Bool) (fs : FS) (filepath : String) : FS × Option String :=
  match fsRead fs filepath with
  | none => (fs, none)
  | some content =>
    if copyOk then (fsWrite fs (filepath ++ ".backup") content, some (filepath ++ ".backup"))
    else (fs, none)

/-- Externally visible events of one `save_image_from_url` call. -/
inductive SaveEvent where
  | httpGet (url : String)
  | fileWrite (path : String)
deriving DecidableEq

/-- Result of one `save_image_from_url` call: the filesystem afterwards,
the events performed, and the returned filepath or the raised
`ImageSaveError` message. -/
structure SaveResult where
  fs : FS
  events : List SaveEvent
  outcome : Except String String
deriving DecidableEq

/-- `save_image_from_url` from `image_generation/utils.py`.  The
disk-space guard raises outside the `try` block, so its message is
unwrapped.  The two deliberate `raise ImageSaveError` statements inside
the `try` block (undecodable bytes, failed `verify`) are caught again by
the trailing `except Exception` clause of the same `try` statement —
neither is a `RequestException` nor an `IOError`/`OSError` — and so are
re-raised wrapped as "Unexpected error while saving image: …".  A
`RequestException` and an `IOError` from `image_copy.save` map to their
dedicated clauses.  The backup step runs only when the destination
already exists, and a backup failure is swallowed by `create_backup`. -/
def save_image_from_url (env : SaveEnv) (fs : FS) (url : String)
    (output_dir : String) : SaveResult :=
  let filename := "generated_image_" ++ env.timestamp ++ ".png"
  let filepath := pathJoin output_dir filename
  if check_disk_space env.diskFree required_bytes_default = false then
    ⟨fs, [], .error "Insufficient disk space for saving the image"⟩
  else
    match env.download with
    | .error e => ⟨fs, [.httpGet url], .error ("Failed to download image: " ++ e)⟩
    | .ok content =>
      if env.decodes content = false then
        ⟨fs, [.httpGet url],
         .error ("Unexpected error while saving image: " ++ "Downloaded data is not a valid image")⟩
      else if env.verifies content = false then
        ⟨fs, [.httpGet url],
         .error ("Unexpected error while saving image: " ++ "Image validation failed")⟩
      else
        let fs1 := if fsExists fs filepath then (create_backup env.copyOk fs filepath).1 else fs
        match env.saveRes with
        | some e => ⟨fs1, [.httpGet url], .error ("Failed to save image: " ++ e)⟩
        | none =>
          ⟨fsWrite fs1 filepath (env.encode content),
           [.httpGet url, .fileWrite filepath], .ok filepath⟩

theorem fsRead_fsWrite_same (fs : FS) (p : String) (b : Bytes) :
    fsRead (fsWrite fs p b) p = some b := by
  simp [fsRead, fsWrite]

theorem find?_filter_ne (fs : FS) (p q : String) (hne : q ≠ p) :
    (fs.filter (fun e => e.1 != p)).find? (fun e => e.1 == q)
      = fs.find? (fun e => e.1 == q) := by
  induction fs with
  | nil => rfl
  | cons e rest ih =>
    by_cases hp : e.1 = p
    · have h1 : (e.1 != p) = false := by simp [hp]
      have h2 : (e.1 == q) = false := by
        rw [hp]
        simp
        exact fun h => hne h.symm
      simp only [List.filter_cons, h1, Bool.false_eq_true, if_false, List.find?_cons, h2, ih]
    · have h1 : (e.1 != p) = true := by simp [hp]
      by_cases hq : e.1 = q
      · have h2 : (e.1 == q) = true := by simp [hq]
        simp only [List.filter_cons, h1, if_true, List.find?_cons, h2]
      · have h2 : (e.1 == q) = false := by simp [hq]
        simp only [List.filter_cons, h1, if_true, List.find?_cons, h2, ih]

theorem fsRead_fsWrite_ne (fs : FS) (p q : String) (b : Bytes) (hne : q ≠ p) :
    fsRead (fsWrite fs p b) q = fsRead fs q := by
  have hpq : (p == q) = false := by
    simp
    exact fun h => hne h.symm
  simp [fsRead, fsWrite, List.find?, hpq, find?_filter_ne fs p q hne]

end ImageGen

open ImageGen

/-- C4: `validate_prompt` rejects every non-string input, every input
that strips to the empty string, and every input whose stripped length
exceeds 500; every other string is returned stripped of surrounding
whitespace; in particular `validate_prompt "  hi  " = ok "hi"`. -/
theorem C4_validate_prompt_contract :
    (∀ t, validate_prompt (.nonString t) = .error "Prompt must be a non-empty string")
    ∧ (∀ s, pyStrip s = "" → ∃ m, validate_prompt (.str s) = .error m)
    ∧ (∀ s, (pyStrip s).length > 500 → ∃ m, validate_prompt (.str s) = .error m)
    ∧ (∀ s, pyStrip s ≠ "" → (pyStrip s).length ≤ 500 →
        validate_prompt (.str s) = .ok (pyStrip s))
    ∧ validate_prompt (.str "  hi  ") = .ok "hi" := by
  refine ⟨fun t => rfl, ?_, ?_, ?_, by rfl⟩
  · intro s hs
    by_cases h0 : s = ""
    · exact ⟨"Prompt must be a non-empty string", by simp [validate_prompt, h0]⟩
    · exact ⟨"Prompt cannot be empty or just whitespace", by simp [validate_prompt, h0, hs]⟩
  · intro s hs
    by_cases h0 : s = ""
    · exact ⟨"Prompt must be a non-empty string", by simp [validate_prompt, h0]⟩
    · by_cases h1 : pyStrip s = ""
      · exact ⟨"Prompt cannot be empty or just whitespace", by simp [validate_prompt, h0, h1]⟩
      · exact ⟨"Prompt is too long (maximum 500 characters)", by simp [validate_prompt, h0, h1, hs]⟩
  · intro s h1 h2
    have h0 : s ≠ "" := by
      intro h; rw [h] at h1; exact h1 (by decide)
    simp [validate_prompt, h0, h1, not_lt.mpr h2]

set_option maxRecDepth 4000 in
/-- C4 witness: the contract evaluated at concrete inputs, including the
whitespace-only prompt, a 501-character prompt, and `"  hi  "`. -/
theorem C4_validate_prompt_contract_witness :
    validate_prompt (.nonString true) = .error "Prompt must be a non-empty string"
    ∧ (∃ m, validate_prompt (.str "   ") = .error m)
    ∧ (∃ m, validate_prompt (.str (String.mk (List.replicate 501 'a'))) = .error m)
    ∧ validate_prompt (.str "  hi  ") = .ok "hi" :=
  ⟨C4_validate_prompt_contract.1 true,
   C4_validate_prompt_contract.2.1 "   " (by decide),
   C4_validate_prompt_contract.2.2.1 (String.mk (List.replicate 501 'a')) (by decide),
   C4_validate_prompt_contract.2.2.2.2⟩

/-- C5: validation is idempotent — whenever `validate_prompt` succeeds
with value `v`, running it again on `v` succeeds and returns `v`. -/
theorem C5_validate_prompt_idempotent (p : PyInput) (v : String)
    (h : validate_prompt p = .ok v) : validate_prompt (.str v) = .ok v := by
  cases p with
  | nonString t => simp [validate_prompt] at h
  | str s =>
    by_cases h0 : s = ""
    · simp [validate_prompt, h0] at h
    · by_cases h1 : pyStrip s = ""
      · simp [validate_prompt, h0, h1] at h
      · by_cases h2 : (pyStrip s).length > 500
        · simp [validate_prompt, h0, h1, h2] at h
        · have hv : v = pyStrip s := by
            simp [validate_prompt, h0, h1, h2] at h
            exact h.symm
          subst hv
          simp [validate_prompt, h1, pyStrip_idem, h2]

/-- C5 witness: idempotence applied to the concrete prompt `"  hi  "`. -/
theorem C5_validate_prompt_idempotent_witness :
    validate_prompt (.str "hi") = .ok "hi" :=
  C5_validate_prompt_idempotent (.str "  hi  ") "hi" (by rfl)

/-- C2: the error classifier `_handle_api_error` is a total function on
caught failures and agrees with the spec's classification table on every
input. -/
theorem C2_classifier_agrees_with_spec_table :
    ∀ e, handle_api_error e = classify_spec e := by
  intro e
  cases e <;> rfl

theorem genFrom_zero_noretry (d : ℚ) (body : Nat → Except (Bool × String) ImageRecord)
    (msg : String) (maxR : Nat) (h : body 0 = .error (false, msg)) :
    genFrom d body 0 maxR = ⟨1, [], .error msg⟩ := by
  cases maxR <;> simp [genFrom, h]

theorem genFrom_all_retry_pos (d : ℚ) (body : Nat → Except (Bool × String) ImageRecord)
    (msg : Nat → String) (hbody : ∀ i, body i = .error (true, msg i)) :
    ∀ remaining a, genFrom d body (a + 1) remaining =
      ⟨remaining + 1, (List.range' a (remaining + 1)).map (fun j => d * 2 ^ j),
       .error (msg (a + 1 + remaining))⟩ := by
  intro remaining
  induction remaining with
  | zero =>
    intro a
    simp [genFrom, hbody (a + 1), List.range'_one]
  | succ r ih =>
    intro a
    rw [List.range'_succ]
    simp [genFrom, hbody (a + 1), ih (a + 1)]
    exact ⟨by omega, congrArg msg (by omega)⟩

theorem genFrom_all_retry (d : ℚ) (body : Nat → Except (Bool × String) ImageRecord)
    (msg : Nat → String) (hbody : ∀ i, body i = .error (true, msg i)) (maxR : Nat) :
    genFrom d body 0 maxR =
      ⟨maxR + 1, (List.range maxR).map (fun j => d * 2 ^ j), .error (msg maxR)⟩ := by
  cases maxR with
  | zero => simp [genFrom, hbody 0]
  | succ r =>
    rw [List.range_eq_range']
    simp [genFrom, hbody 0, genFrom_all_retry_pos d body msg hbody r 0]
    exact ⟨by omega, congrArg msg (by omega)⟩

/-- C3: with every remote call failing retryably, `generate_image` with
`max_retries = maxR` makes `maxR + 1` remote calls, sleeps `maxR` times
with delays `base_delay * 2 ^ j` for `j = 0, …, maxR - 1` in order (so
attempt `a > 0` is preceded by the sleep `base_delay * 2 ^ (a - 1)`), and
ends in a terminal error; in particular for `max_retries = 2` there are
exactly 3 calls and exactly 2 sleeps, `base_delay` then
`2 * base_delay`. -/
theorem C3_retry_count_and_backoff (d : ℚ)
    (call : Nat → Except CaughtError (List String))
    (persist : String → Except String String) (raw : PyInput) (cleaned : String)
    (err : Nat → CaughtError)
    (hv : validate_prompt raw = .ok cleaned)
    (hcall : ∀ a, call a = .error (err a))
    (hretry : ∀ a, (handle_api_error (err a)).1 = true) :
    (∀ maxR, (generate_image maxR d call persist raw).calls = maxR + 1
      ∧ (generate_image maxR d call persist raw).sleeps
          = (List.range maxR).map (fun j => d * 2 ^ j)
      ∧ (∀ a, 0 < a → a ≤ maxR →
          (generate_image maxR d call persist raw).sleeps[a - 1]?
            = some (d * 2 ^ (a - 1)))
      ∧ (generate_image maxR d call persist raw).result
          = .error (.apiError (handle_api_error (err maxR)).2))
    ∧ (generate_image 2 d call persist raw).calls = 3
    ∧ (generate_image 2 d call persist raw).sleeps = [d, 2 * d] := by
  have hbody : ∀ i, attemptOnce call persist cleaned i
      = .error (true, (handle_api_error (err i)).2) := by
    intro i
    rcases hE : handle_api_error (err i) with ⟨b, m⟩
    have h1 := hretry i
    rw [hE] at h1
    simp at h1
    simp [attemptOnce, hcall i, hE, h1]
  have hg : ∀ maxR, generate_image maxR d call persist raw =
      ⟨maxR + 1, (List.range maxR).map (fun j => d * 2 ^ j),
       .error (.apiError (handle_api_error (err maxR)).2)⟩ := by
    intro maxR
    simp [generate_image, hv, genFrom_all_retry d _ _ hbody maxR, Except.mapError]
  refine ⟨fun maxR => ⟨by rw [hg], by rw [hg], ?_, by rw [hg]⟩, by rw [hg 2], ?_⟩
  · intro a ha hale
    rw [hg]
    have hlt : a - 1 < maxR := by omega
    simp [List.getElem?_map, List.getElem?_range, hlt]
  · rw [hg 2]
    have h2 : List.range 2 = [0, 1] := by decide
    rw [h2]
    simp [pow_succ, mul_comm]

/-- C3 witness: a remote call that always fails with a network error,
`max_retries = 2`, `base_delay = 1`: 3 calls, sleeps `[1, 2]`, and the
second sleep is `1 * 2 ^ 1`. -/
theorem C3_retry_count_and_backoff_witness :
    (generate_image 2 1 (fun _ => .error (.requestException "down"))
      (fun _ => .ok "fp") (.str "hi")).calls = 3
    ∧ (generate_image 2 1 (fun _ => .error (.requestException "down"))
      (fun _ => .ok "fp") (.str "hi")).sleeps = [1, 2 * 1] :=
  ⟨(C3_retry_count_and_backoff 1 (fun _ => .error (.requestException "down"))
      (fun _ => .ok "fp") (.str "hi") "hi" (fun _ => .requestException "down")
      (by rfl) (fun _ => rfl) (fun _ => rfl)).2.1,
   (C3_retry_count_and_backoff 1 (fun _ => .error (.requestException "down"))
      (fun _ => .ok "fp") (.str "hi") "hi" (fun _ => .requestException "down")
      (by rfl) (fun _ => rfl) (fun _ => rfl)).2.2⟩

/-- C1 counterexample: with the remote call succeeding with an empty
response list, `generate_image` raises
`APIError("Unexpected error: list index out of range")` — the `IndexError`
from `output[0]` goes through the catch-all branch of
`_handle_api_error` — and not an error whose message is
"malformed response". -/
theorem C1_empty_response_counterexample :
    (generate_image 2 1 (fun _ => .ok []) (fun _ => .ok "fp") (.str "hi")).result
      = .error (.apiError "Unexpected error: list index out of range")
    ∧ (generate_image 2 1 (fun _ => .ok []) (fun _ => .ok "fp") (.str "hi")).result
      ≠ .error (.apiError "malformed response") := by
  constructor
  · rfl
  · decide

/-- C1 (amended): whenever the remote call of attempt 0 succeeds but
returns an empty list, `generate_image` fails terminally — after exactly
one remote call, with no retry — with
`APIError("Unexpected error: list index out of range")`: the absent first
URL surfaces as the `IndexError` of `output[0]`, classified by the
catch-all unexpected-error branch (there is no "malformed response"
error in the code). -/
theorem C1_empty_response_terminal (maxR : Nat) (d : ℚ)
    (call : Nat → Except CaughtError (List String))
    (persist : String → Except String String) (raw : PyInput) (cleaned : String)
    (hv : validate_prompt raw = .ok cleaned) (h0 : call 0 = .ok []) :
    (generate_image maxR d call persist raw).result
      = .error (.apiError "Unexpected error: list index out of range")
    ∧ (generate_image maxR d call persist raw).calls = 1 := by
  have hb : attemptOnce call persist cleaned 0
      = .error (false, "Unexpected error: list index out of range") := by
    simp only [attemptOnce, h0]
    rfl
  constructor <;>
    simp [generate_image, hv, genFrom_zero_noretry d _ _ maxR hb, Except.mapError]

/-- C1 witness: the amended claim at `max_retries = 2`, `base_delay = 1`,
a remote call returning `[]`, and the prompt `"hi"`. -/
theorem C1_empty_response_terminal_witness :
    (generate_image 2 1 (fun _ => .ok []) (fun _ => .ok "fp") (.str "hi")).result
      = .error (.apiError "Unexpected error: list index out of range")
    ∧ (generate_image 2 1 (fun _ => .ok []) (fun _ => .ok "fp") (.str "hi")).calls = 1 :=
  C1_empty_response_terminal 2 1 (fun _ => .ok []) (fun _ => .ok "fp")
    (.str "hi") "hi" (by rfl) rfl

/-- C9: when the remote call of attempt 0 succeeds with a first URL but
the persistence pipeline fails (an `ImageSaveError` with message `m`),
`generate_image` makes exactly one remote call — the classification of
`ImageSaveError` is no-retry, so the remote service is never re-invoked —
and the caller receives exactly one terminal error,
`APIError("Unexpected error: " + m)`. -/
theorem C9_persist_failure_not_retried (maxR : Nat) (d : ℚ)
    (call : Nat → Except CaughtError (List String))
    (persist : String → Except String String) (raw : PyInput)
    (cleaned u : String) (urls : List String) (m : String)
    (hv : validate_prompt raw = .ok cleaned)
    (h0 : call 0 = .ok (u :: urls))
    (hp : persist u = .error m) :
    (generate_image maxR d call persist raw).calls = 1
    ∧ (generate_image maxR d call persist raw).result
        = .error (.apiError ("Unexpected error: " ++ m)) := by
  have hb : attemptOnce call persist cleaned 0
      = .error (false, "Unexpected error: " ++ m) := by
    simp only [attemptOnce, h0, hp]
    rfl
  constructor <;>
    simp [generate_image, hv, genFrom_zero_noretry d _ _ maxR hb, Except.mapError]

/-- C9 witness: one successful remote call whose URL the pipeline fails
to persist; one call, one terminal error. -/
theorem C9_persist_failure_not_retried_witness :
    (generate_image 3 1 (fun _ => .ok ["u"]) (fun _ => .error "boom") (.str "hi")).calls = 1
    ∧ (generate_image 3 1 (fun _ => .ok ["u"]) (fun _ => .error "boom") (.str "hi")).result
        = .error (.apiError ("Unexpected error: " ++ "boom")) :=
  C9_persist_failure_not_retried 3 1 (fun _ => .ok ["u"]) (fun _ => .error "boom")
    (.str "hi") "hi" "u" [] "boom" (by rfl) rfl rfl

theorem attemptOnce_ok_prompt (call : Nat → Except CaughtError (List String))
    (persist : String → Except String String) (cleaned : String) (a : Nat)
    (r : ImageRecord) (h : attemptOnce call persist cleaned a = .ok r) :
    r.prompt = cleaned := by
  unfold attemptOnce at h
  rcases hc : call a with e | urls
  · rw [hc] at h
    simp at h
  · rw [hc] at h
    rcases urls with _ | ⟨u, rest⟩
    · simp at h
    · dsimp only at h
      rcases hp : persist u with m | fp
      · rw [hp] at h
        simp at h
      · rw [hp] at h
        simp only [Except.ok.injEq] at h
        subst h
        rfl

theorem genFrom_ok_prompt (d : ℚ) (body : Nat → Except (Bool × String) ImageRecord)
    (cleaned : String) (hbody : ∀ a r, body a = .ok r → r.prompt = cleaned) :
    ∀ remaining a r, (genFrom d body a remaining).result = .ok r → r.prompt = cleaned := by
  intro remaining
  induction remaining with
  | zero =>
    intro a r h
    rcases hba : body a with ⟨sr, msg⟩ | r'
    · simp [genFrom, hba] at h
    · simp [genFrom, hba] at h
      exact h ▸ hbody a r' hba
  | succ rem ih =>
    intro a r h
    rcases hba : body a with ⟨sr, msg⟩ | r'
    · rcases sr with _ | _
      · simp [genFrom, hba] at h
      · simp [genFrom, hba] at h
        exact ih (a + 1) r h
    · simp [genFrom, hba] at h
      exact h ▸ hbody a r' hba

theorem generate_image_ok_prompt (maxR : Nat) (d : ℚ)
    (call : Nat → Except CaughtError (List String))
    (persist : String → Except String String) (raw : PyInput) (cleaned : String)
    (r : ImageRecord) (hv : validate_prompt raw = .ok cleaned)
    (hr : (generate_image maxR d call persist raw).result = .ok r) :
    r.prompt = cleaned := by
  unfold generate_image at hr
  rw [hv] at hr
  dsimp only at hr
  rcases ht : (genFrom d (attemptOnce call persist cleaned) 0 maxR).result with e | r'
  · rw [ht] at hr
    simp [Except.mapError] at hr
  · rw [ht] at hr
    simp [Except.mapError] at hr
    exact hr ▸ genFrom_ok_prompt d _ cleaned (attemptOnce_ok_prompt call persist cleaned)
      maxR 0 r' ht

/-- C10: on success the `prompt` field of the returned record is the
cleaned prompt produced by validation, i.e. the whitespace-trimmed form
of the raw input — and therefore differs from the raw string whenever the
raw string carries surrounding whitespace. -/
theorem C10_prompt_field_is_cleaned (maxR : Nat) (d : ℚ)
    (call : Nat → Except CaughtError (List String))
    (persist : String → Except String String) (s cleaned : String)
    (r : ImageRecord)
    (hv : validate_prompt (.str s) = .ok cleaned)
    (hr : (generate_image maxR d call persist (.str s)).result = .ok r) :
    r.prompt = cleaned ∧ r.prompt = pyStrip s
    ∧ (s ≠ pyStrip s → r.prompt ≠ s) := by
  have hcl : cleaned = pyStrip s := by
    by_cases h0 : s = ""
    · simp [validate_prompt, h0] at hv
    · by_cases h1 : pyStrip s = ""
      · simp [validate_prompt, h0, h1] at hv
      · by_cases h2 : (pyStrip s).length > 500
        · simp [validate_prompt, h0, h1, h2] at hv
        · simp [validate_prompt, h0, h1, h2] at hv
          exact hv.symm
  have hp := generate_image_ok_prompt maxR d call persist _ cleaned r hv hr
  have h3 : r.prompt = pyStrip s := hcl ▸ hp
  refine ⟨hp, h3, fun hne hcontra => hne ?_⟩
  rw [← hcontra, h3]
  exact (pyStrip_idem s).symm

/-- C10 witness: the raw prompt `"  hi  "` generates successfully and
the returned record's prompt is `"hi"`, the trimmed form, not the raw
string. -/
theorem C10_prompt_field_is_cleaned_witness :
    (⟨"fp", "hi"⟩ : ImageRecord).prompt = "hi"
    ∧ (⟨"fp", "hi"⟩ : ImageRecord).prompt = pyStrip "  hi  "
    ∧ ("  hi  " ≠ pyStrip "  hi  " → (⟨"fp", "hi"⟩ : ImageRecord).prompt ≠ "  hi  ") :=
  C10_prompt_field_is_cleaned 0 1 (fun _ => .ok ["u"]) (fun _ => .ok "fp")
    "  hi  " "hi" ⟨"fp", "hi"⟩ (by rfl) (by rfl)

theorem append_backup_ne (fp : String) : fp ++ ".backup" ≠ fp := by
  intro h
  have h2 := congrArg String.length h
  rw [String.length_append] at h2
  have h7 : (".backup" : String).length = 7 := rfl
  omega

/-- C6 counterexample: a URL delivering bytes that do not decode as an
image.  The raised `ImageSaveError` message is the decode-failure message
re-wrapped by the `except Exception` clause of the same `try` block —
"Unexpected error while saving image: Downloaded data is not a valid
image" — not the bare decode-failure condition. -/
theorem C6_not_valid_image_counterexample :
    (save_image_from_url ⟨some (required_bytes_default + 1), .ok [1, 2, 3],
        fun _ => false, fun _ => true, id, true, none, "t"⟩ [] "u" "out").outcome
      = .error ("Unexpected error while saving image: Downloaded data is not a valid image")
    ∧ (save_image_from_url ⟨some (required_bytes_default + 1), .ok [1, 2, 3],
        fun _ => false, fun _ => true, id, true, none, "t"⟩ [] "u" "out").outcome
      ≠ .error "Downloaded data is not a valid image"
    ∧ (save_image_from_url ⟨some (required_bytes_default + 1), .ok [1, 2, 3],
        fun _ => false, fun _ => true, id, true, none, "t"⟩ [] "u" "out").outcome
      ≠ .error "not a valid image" := by
  refine ⟨rfl, by decide, by decide⟩

/-- C6 (amended): for every URL whose downloaded bytes do not decode as
an image, `save_image_from_url` raises an `ImageSaveError` whose message
is the decode-failure message wrapped by the generic handler of the same
`try` block, "Unexpected error while saving image: Downloaded data is not
a valid image" (it contains the "not a valid image" condition but is not
equal to it), and the filesystem is unchanged — in particular no
destination file is created. -/
theorem C6_not_valid_image_wrapped (env : SaveEnv) (fs : FS) (url outdir : String)
    (content : Bytes)
    (hdisk : check_disk_space env.diskFree required_bytes_default = true)
    (hdl : env.download = .ok content)
    (hdec : env.decodes content = false) :
    (save_image_from_url env fs url outdir).outcome
      = .error ("Unexpected error while saving image: " ++ "Downloaded data is not a valid image")
    ∧ (save_image_from_url env fs url outdir).fs = fs := by
  constructor <;> simp [save_image_from_url, hdisk, hdl, hdec]

/-- C6 witness: the amended claim at a concrete environment delivering
non-image bytes into an empty filesystem. -/
theorem C6_not_valid_image_wrapped_witness :
    (save_image_from_url ⟨some (required_bytes_default + 1), .ok [7],
        fun _ => false, fun _ => true, id, true, none, "ts"⟩ [] "url" "dir").outcome
      = .error ("Unexpected error while saving image: " ++ "Downloaded data is not a valid image")
    ∧ (save_image_from_url ⟨some (required_bytes_default + 1), .ok [7],
        fun _ => false, fun _ => true, id, true, none, "ts"⟩ [] "url" "dir").fs = [] :=
  C6_not_valid_image_wrapped ⟨some (required_bytes_default + 1), .ok [7],
    fun _ => false, fun _ => true, id, true, none, "ts"⟩ [] "url" "dir" [7]
    (by decide) rfl rfl

/-- C7: the disk-space check is advisory and fail-open.  If
`shutil.disk_usage` itself raises, `check_disk_space` returns `True` and
the pipeline behaves exactly as if ample space had been reported; if the
check reports free space at or below the floor, the call fails with the
insufficient-disk-space `ImageSaveError` with no events at all — in
particular before any network access — and an unchanged filesystem. -/
theorem C7_disk_check_advisory_fail_open :
    (∀ r, check_disk_space none r = true)
    ∧ (∀ env fs url outdir free, env.diskFree = some free →
        free ≤ required_bytes_default →
        save_image_from_url env fs url outdir
          = ⟨fs, [], .error "Insufficient disk space for saving the image"⟩)
    ∧ (∀ env fs url outdir, env.diskFree = none →
        save_image_from_url env fs url outdir
          = save_image_from_url
              ⟨some (required_bytes_default + 1), env.download, env.decodes,
               env.verifies, env.encode, env.copyOk, env.saveRes, env.timestamp⟩
              fs url outdir) := by
  refine ⟨fun r => rfl, ?_, ?_⟩
  · intro env fs url outdir free h1 h2
    have hC : check_disk_space env.diskFree required_bytes_default = false := by
      simp [check_disk_space, h1, Nat.not_lt.mpr h2]
    simp [save_image_from_url, hC]
  · intro env fs url outdir h
    rcases env with ⟨df, dl, dec, ver, enc, cok, sres, ts⟩
    simp only at h
    subst h
    have hC : check_disk_space (none : Option Nat) required_bytes_default = true := rfl
    have hC2 : check_disk_space (some (required_bytes_default + 1))
        required_bytes_default = true := by
      simp [check_disk_space]
    simp [save_image_from_url, hC, hC2]

/-- C7 witness: a filesystem-check failure (`none`) proceeds identically
to ample space; a reported free space equal to the floor fails with the
insufficient-space error, no events, unchanged filesystem. -/
theorem C7_disk_check_advisory_fail_open_witness :
    check_disk_space none 0 = true
    ∧ save_image_from_url ⟨some required_bytes_default, .ok [1],
        fun _ => true, fun _ => true, id, true, none, "t"⟩ [] "u" "d"
      = ⟨[], [], .error "Insufficient disk space for saving the image"⟩
    ∧ save_image_from_url ⟨none, .ok [1], fun _ => true, fun _ => true,
        id, true, none, "t"⟩ [] "u" "d"
      = save_image_from_url ⟨some (required_bytes_default + 1), .ok [1],
        fun _ => true, fun _ => true, id, true, none, "t"⟩ [] "u" "d" :=
  ⟨C7_disk_check_advisory_fail_open.1 0,
   C7_disk_check_advisory_fail_open.2.1 ⟨some required_bytes_default, .ok [1],
     fun _ => true, fun _ => true, id, true, none, "t"⟩ [] "u" "d"
     required_bytes_default rfl (Nat.le_refl _),
   C7_disk_check_advisory_fail_open.2.2 ⟨none, .ok [1], fun _ => true,
     fun _ => true, id, true, none, "t"⟩ [] "u" "d" rfl⟩

/-- C8: backup is best-effort and preserves the old content.  First part:
when the destination exists at write time and the backup copy succeeds, a
successful call leaves `<path>.backup` holding the prior destination
content and the destination holding the bytes written for the newly
downloaded image.  Second part: the call's outcome never depends on
whether the backup copy succeeds — a backup failure is swallowed and
never fails the call. -/
theorem C8_backup_best_effort :
    (∀ env fs url outdir content old,
      check_disk_space env.diskFree required_bytes_default = true →
      env.download = .ok content →
      env.decodes content = true →
      env.verifies content = true →
      env.saveRes = none →
      env.copyOk = true →
      fsRead fs (pathJoin outdir ("generated_image_" ++ env.timestamp ++ ".png"))
        = some old →
      (save_image_from_url env fs url outdir).outcome
          = .ok (pathJoin outdir ("generated_image_" ++ env.timestamp ++ ".png"))
        ∧ fsRead (save_image_from_url env fs url outdir).fs
            (pathJoin outdir ("generated_image_" ++ env.timestamp ++ ".png") ++ ".backup")
          = some old
        ∧ fsRead (save_image_from_url env fs url outdir).fs
            (pathJoin outdir ("generated_image_" ++ env.timestamp ++ ".png"))
          = some (env.encode content))
    ∧ (∀ df dl dec ver enc c1 c2 sres ts fs url outdir,
        (save_image_from_url ⟨df, dl, dec, ver, enc, c1, sres, ts⟩ fs url outdir).outcome
          = (save_image_from_url ⟨df, dl, dec, ver, enc, c2, sres, ts⟩ fs url outdir).outcome) := by
  constructor
  · intro env fs url outdir content old hC hdl hdec hver hsr hcok hold
    have hex : fsExists fs (pathJoin outdir ("generated_image_" ++ env.timestamp ++ ".png"))
        = true := by
      simp [fsExists, hold]
    have hcb : create_backup env.copyOk fs
        (pathJoin outdir ("generated_image_" ++ env.timestamp ++ ".png"))
        = (fsWrite fs (pathJoin outdir ("generated_image_" ++ env.timestamp ++ ".png")
            ++ ".backup") old,
           some (pathJoin outdir ("generated_image_" ++ env.timestamp ++ ".png")
            ++ ".backup")) := by
      simp [create_backup, hold, hcok]
    have hsave : save_image_from_url env fs url outdir
        = ⟨fsWrite (fsWrite fs (pathJoin outdir ("generated_image_" ++ env.timestamp
              ++ ".png") ++ ".backup") old)
            (pathJoin outdir ("generated_image_" ++ env.timestamp ++ ".png"))
            (env.encode content),
           [.httpGet url, .fileWrite (pathJoin outdir ("generated_image_"
              ++ env.timestamp ++ ".png"))],
           .ok (pathJoin outdir ("generated_image_" ++ env.timestamp ++ ".png"))⟩ := by
      simp [save_image_from_url, hC, hdl, hdec, hver, hsr, hex, hcb]
    rw [hsave]
    refine ⟨rfl, ?_, ?_⟩
    · dsimp only
      rw [fsRead_fsWrite_ne _ _ _ _ (append_backup_ne _)]
      exact fsRead_fsWrite_same _ _ _
    · dsimp only
      exact fsRead_fsWrite_same _ _ _
  · intro df dl dec ver enc c1 c2 sres ts fs url outdir
    by_cases hC : check_disk_space df required_bytes_default = false
    · simp [save_image_from_url, hC]
    · rcases dl with e | content
      · simp [save_image_from_url, hC]
      · by_cases hd : dec content = false
        · simp [save_image_from_url, hC, hd]
        · by_cases hv : ver content = false
          · simp [save_image_from_url, hC, hd, hv]
          · rcases sres with _ | e
            · simp [save_image_from_url, hC, hd, hv]
            · simp [save_image_from_url, hC, hd, hv]

/-- C8 witness: a pipeline run over a filesystem where the destination
already holds `[9]`; afterwards the backup holds `[9]`, the destination
holds the new bytes, and the outcome is independent of whether the
backup copy succeeded. -/
theorem C8_backup_best_effort_witness :
    ((save_image_from_url ⟨some (required_bytes_default + 1), .ok [1, 2],
        fun _ => true, fun _ => true, id, true, none, "t"⟩
        [(pathJoin "d" ("generated_image_" ++ "t" ++ ".png"), [9])] "u" "d").outcome
      = .ok (pathJoin "d" ("generated_image_" ++ "t" ++ ".png"))
    ∧ fsRead (save_image_from_url ⟨some (required_bytes_default + 1), .ok [1, 2],
        fun _ => true, fun _ => true, id, true, none, "t"⟩
        [(pathJoin "d" ("generated_image_" ++ "t" ++ ".png"), [9])] "u" "d").fs
        (pathJoin "d" ("generated_image_" ++ "t" ++ ".png") ++ ".backup") = some [9]
    ∧ fsRead (save_image_from_url ⟨some (required_bytes_default + 1), .ok [1, 2],
        fun _ => true, fun _ => true, id, true, none, "t"⟩
        [(pathJoin "d" ("generated_image_" ++ "t" ++ ".png"), [9])] "u" "d").fs
        (pathJoin "d" ("generated_image_" ++ "t" ++ ".png"))
      = some (id [1, 2]))
    ∧ (save_image_from_url ⟨some (required_bytes_default + 1), .ok [1, 2],
        fun _ => true, fun _ => true, id, true, none, "t"⟩ [] "u" "d").outcome
      = (save_image_from_url ⟨some (required_bytes_default + 1), .ok [1, 2],
        fun _ => true, fun _ => true, id, false, none, "t"⟩ [] "u" "d").outcome :=
  ⟨C8_backup_best_effort.1 ⟨some (required_bytes_default + 1), .ok [1, 2],
      fun _ => true, fun _ => true, id, true, none, "t"⟩
      [(pathJoin "d" ("generated_image_" ++ "t" ++ ".png"), [9])] "u" "d" [1, 2] [9]
      (by decide) rfl rfl rfl rfl rfl (by rfl),
   C8_backup_best_effort.2 (some (required_bytes_default + 1)) (.ok [1, 2])
      (fun _ => true) (fun _ => true) id true false none "t" [] "u" "d"⟩
